import Mathlib

/-!
# Verification of the social-integration webhook reconciliation engine

Shallow embedding of `LinkedInWebhookService.handleConnectionAccepted`,
`triggerAutoCall`, `revealPhoneNumber`, `normalizeLinkedInUrl`
(src/backend/features/social-integration/services/LinkedInWebhookService.js)
and of `SocialIntegrationController.handleWebhook`
(src/backend/features/social-integration/controllers/SocialIntegrationController.js).

JavaScript conventions carried over faithfully:
* `x || y` on strings treats the empty string as falsy; on numbers it treats
  `0` as falsy.  We model nullable JS values as `Option` and provide
  `jsOrS` / `jsValS` / `jsValI` implementing the falsiness rules.
* Database tables are modelled as lists inside a `Store`; the SQL of each
  query is translated predicate-by-predicate (`REPLACE` chains, `LIKE`
  patterns, `ORDER BY ... LIMIT 1`).
* Each run of the handler returns the produced JSON result, the new state
  and a `Trace` recording which mutation sites executed (each mutation site
  occurs at most once per invocation in the source, hence `Option` fields).
-/

namespace SocialIntegration

/-! ## Character-list string utilities (kernel-reducible replacements for
JS/SQL string operations) -/

/-- Drop `pre` from the front of `s` if it is a prefix, otherwise `none`.
Implements the anchored JS regex replaces such as `replace(/^https?:\/\//,'')`. -/
def prefixDrop : List Char → List Char → Option (List Char)
  | [], s => some s
  | _ :: _, [] => none
  | p :: pr, c :: cs => if c = p then prefixDrop pr cs else none

/-- Does `s` contain `pat` as a contiguous substring?  Implements SQL
`LIKE '%pat%'` and JS `.includes(pat)`. -/
def hasSub (pat : List Char) : List Char → Bool
  | [] => pat.isEmpty
  | c :: rest => ((c :: rest).take pat.length == pat) || hasSub pat rest

/-- Remainder of `s` strictly after the first occurrence of `pat`
(`none` when `pat` does not occur).  Used for `LIKE '%a%b%'` patterns. -/
def afterSub (pat : List Char) : List Char → Option (List Char)
  | [] => if pat.isEmpty then some [] else none
  | c :: rest =>
    if (c :: rest).take pat.length == pat then some ((c :: rest).drop pat.length)
    else afterSub pat rest

/-- One fuel-driven pass of global substring removal (SQL `REPLACE(s, pat, '')`),
scanning left to right and removing non-overlapping occurrences. -/
def stripAllGo (pat : List Char) : Nat → List Char → List Char
  | 0, s => s
  | _ + 1, [] => []
  | fuel + 1, c :: rest =>
    if pat ≠ [] ∧ (c :: rest).take pat.length = pat then
      stripAllGo pat fuel ((c :: rest).drop pat.length)
    else c :: stripAllGo pat fuel rest

/-- Global substring removal, SQL `REPLACE(s, pat, '')`. -/
def stripAll (pat s : List Char) : List Char := stripAllGo pat s.length s

/-- JS `String.prototype.trim` (restricted to the ASCII whitespace actually
occurring in phone strings). -/
def isWs (c : Char) : Bool := c = ' ' || c = '\t' || c = '\n' || c = '\r'

def trimChars (s : List Char) : List Char :=
  ((s.dropWhile isWs).reverse.dropWhile isWs).reverse

/-- Lower-casing, SQL `LOWER`. -/
def lowerStr (s : String) : String := ⟨s.data.map Char.toLower⟩

/-- String-level containment of `pat` in `s`. -/
def strContains (s pat : String) : Bool := hasSub pat.data s.data

/-- JS `replace(/^https?:\/\//, '')`. -/
def jsStripScheme (s : String) : String :=
  match prefixDrop "https://".data s.data with
  | some r => ⟨r⟩
  | none =>
    match prefixDrop "http://".data s.data with
    | some r => ⟨r⟩
    | none => s

/-- JS `replace(/^www\./, '')`. -/
def jsStripWww (s : String) : String :=
  match prefixDrop "www.".data s.data with
  | some r => ⟨r⟩
  | none => s

/-- The two chained anchored replaces used to build `urlForMatching`. -/
def jsStripSchemeWww (s : String) : String := jsStripWww (jsStripScheme s)

/-- SQL `REPLACE(REPLACE(REPLACE(x,'https://',''),'http://',''),'www.','')`
(global, not anchored). -/
def sqlStripUrl (s : String) : String :=
  ⟨stripAll "www.".data (stripAll "http://".data (stripAll "https://".data s.data))⟩

/-! ## JS falsiness helpers -/

/-- A JS string value coerced through truthiness: `""` and absent are falsy. -/
def jsValS : Option String → Option String
  | some s => if s = "" then none else some s
  | none => none

/-- JS `a || b` on nullable strings. -/
def jsOrS (a b : Option String) : Option String :=
  match jsValS a with
  | some s => some s
  | none => jsValS b

/-- First truthy value of a chain `a || b || c || ...` of JS string fields. -/
def jsChain : List (Option String) → Option String
  | [] => none
  | o :: rest =>
    match jsValS o with
    | some s => some s
    | none => jsChain rest

/-- A JS numeric value coerced through truthiness: `0` and absent are falsy. -/
def jsValI : Option Int → Option Int
  | some t => if t = 0 then none else some t
  | none => none

/-- JS `a || b` on nullable numbers. -/
def jsOrI (a b : Option Int) : Option Int :=
  match jsValI a with
  | some t => some t
  | none => jsValI b

/-! ## `normalizeLinkedInUrl` (LinkedInWebhookService.js lines 960–975) -/

/-- The JS regex match `normalized.match(/linkedin\.com\/in\/([^/?]+)/)`:
find the first position where `linkedin.com/in/` occurs followed by at least
one character other than `/` or `?`, and return that maximal slug run. -/
def findInSlug : List Char → Option (List Char)
  | [] => none
  | c :: rest =>
    if (c :: rest).take 16 = "linkedin.com/in/".data then
      let slug := ((c :: rest).drop 16).takeWhile fun ch => ch ≠ '/' ∧ ch ≠ '?'
      if slug = [] then findInSlug rest else some slug
    else findInSlug rest

/-- JS `normalized.split('?')[0]`. -/
def beforeQuery (s : List Char) : List Char := s.takeWhile (· ≠ '?')

/-- JS `normalizeLinkedInUrl(url)`: `null` for falsy input; strip scheme and
`www.`; extract the `/in/<slug>` capture and rebuild the canonical URL;
otherwise fall back on the `linkedin.com/in/`-containing branch; otherwise
return the input unchanged. -/
def normalizeLinkedInUrl (url : String) : Option String :=
  if url = "" then none
  else
    let normalized := jsStripWww (jsStripScheme url)
    match findInSlug normalized.data with
    | some slug => some ("https://www.linkedin.com/in/" ++ ⟨slug⟩)
    | none =>
      if strContains normalized "linkedin.com/in/" then
        some ("https://www." ++ ⟨beforeQuery normalized.data⟩)
      else some url

/-- Total wrapper used by the handler: the handler only calls the normalizer
on a truthy URL, for which the `null` branch is unreachable. -/
def normalizedOf (url : String) : String := (normalizeLinkedInUrl url).getD url

/-! ## Data model

Rows of the tables touched by the webhook service.  Only the columns the
service reads or writes are modelled. -/

/-- A row of `leads` (columns used by the service; `agent_id` is never
selected by any of its queries, so the lead objects it manipulates have no
agent id — the agent resolution in `triggerAutoCall` therefore always falls
through to the organization setting / environment default). -/
structure Lead where
  id : Nat
  name : String
  status : String
  stage : String
  organization_id : Option Nat
  phone : Option String
  email : Option String
  job_title : Option String
  company : Option String
  updated_at : Int
  is_deleted : Bool
deriving DecidableEq, Repr

/-- A row of `employees_cache`. -/
structure CacheEntry where
  employee_name : Option String
  employee_linkedin_url : String
  company_name : Option String
  employee_phone : Option String
deriving DecidableEq, Repr

/-- A row of `voice_agent.call_logs_voiceagent` (`target` is nullable). -/
structure CallLog where
  id : Nat
  target : Option Nat
  added_context : String
  started_at : Int
deriving DecidableEq, Repr

/-- A row of `lead_stages`. -/
structure StageRow where
  organization_id : Nat
  key : String
  stage_name : String
  display_order : Int
deriving DecidableEq, Repr

/-- A row of `linkedin_integrations` (columns used by the org lookup). -/
structure IntegrationRow where
  organization_id : Option Nat
  is_active : Bool
  unipile_account_id : Option String
deriving DecidableEq, Repr

/-- A row of `organization_settings`. -/
structure OrgSetting where
  organization_id : Nat
  key : String
  value : String
deriving DecidableEq, Repr

/-- The database state visible to the webhook service.  `leadSocial` holds
`(lead_id, linkedin)` pairs; `lead_id` is unique (the table has
`ON CONFLICT (lead_id)`). -/
structure Store where
  leads : List Lead
  leadSocial : List (Nat × String)
  employeesCache : List CacheEntry
  callLogs : List CallLog
  leadStages : List StageRow
  integrations : List IntegrationRow
  orgSettings : List OrgSetting
  nextLeadId : Nat
deriving DecidableEq, Repr

/-! ## Webhook payloads -/

/-- The nested `recipient` object of a connection event. -/
structure Recipient where
  linkedin_profile_url : Option String
  profile_url : Option String
  linkedin_url : Option String
  full_name : Option String
  rec_name : Option String
deriving DecidableEq, Repr

/-- The event-data object (either `payload.data` or, when that is absent,
the payload itself serves as the data object). -/
structure EventData where
  user_profile_url : Option String
  user_public_identifier : Option String
  recipient : Option Recipient
  linkedin_url : Option String
  profile_url : Option String
  user_full_name : Option String
  full_name : Option String
  ev_name : Option String
  timestamp : Option Int
deriving DecidableEq, Repr

/-- A webhook payload for `handleConnectionAccepted`.  `top` carries the
payload's own top-level event fields, used when `data` is absent
(`const data = payload.data || payload`).  In that aliasing case the data
object's timestamp *is* `timestamp`, so `top.timestamp` is never consulted. -/
structure Payload where
  timestamp : Option Int
  data : Option EventData
  top : EventData
deriving DecidableEq, Repr

def emptyRecipient : Recipient :=
  { linkedin_profile_url := none, profile_url := none, linkedin_url := none
    full_name := none, rec_name := none }

/-- JS `payload.data || payload`. -/
def eventDataOf (p : Payload) : EventData := p.data.getD p.top

/-- JS `payload.timestamp || data.timestamp` where `data = payload.data || payload`
(so with `data` absent the second alternative aliases `payload.timestamp`). -/
def effectiveStaleTs (p : Payload) : Option Int :=
  jsOrI p.timestamp (match p.data with | some d => d.timestamp | none => p.timestamp)

/-! ## Environment and side-effect oracles -/

/-- Response of `POST /api/voiceagent/calls`: `callResponse.data?.success`. -/
structure CallData where
  success : Option Bool
deriving DecidableEq, Repr

structure CallApiResponse where
  data : Option CallData
deriving DecidableEq, Repr

/-- Outcome of the axios call dispatch: a response, or a thrown transport
error (timeout included). -/
inductive CallOutcome where
  | resp (r : CallApiResponse)
  | err (msg : String)
deriving DecidableEq, Repr

/-- Process environment and clock for one invocation.  `now` is
`Date.now()` in epoch milliseconds; `autoCallEnabled` is
`LINKEDIN_AUTO_CALL_ENABLED !== 'false'`; `batchModeEnabled` is
`LINKEDIN_BATCH_CALL_ENABLED === 'true'`; `defaultAgentId` is
`process.env.DEFAULT_VOICE_AGENT_ID` (with the `'24'` literal fallback
applied in `triggerAutoCall`). -/
structure Env where
  now : Int
  autoCallEnabled : Bool
  batchModeEnabled : Bool
  callOutcome : CallOutcome
  defaultAgentId : Option String
deriving DecidableEq, Repr

/-- JS `callResponse.data?.success !== false`, evaluated on a non-thrown
response; a thrown transport error never reaches this test. -/
def callInitiatedOf : CallOutcome → Bool
  | .err _ => false
  | .resp r =>
    match r.data with
    | some d => !(d.success == some false)
    | none => true

/-! ## Store queries (SQL translated predicate-by-predicate) -/

/-- Column `lead_social.linkedin` of a lead (unique per lead id). -/
def socialOf (st : Store) (leadId : Nat) : Option String :=
  (st.leadSocial.find? fun e => e.1 == leadId).map (·.2)

/-- The three-way URL condition of the lead lookup query:
exact match, global-scheme/`www`-stripped match, substring `LIKE` match. -/
def socialUrlMatches (link normalizedUrl urlForMatching : String) : Bool :=
  link == normalizedUrl
    || sqlStripUrl link == urlForMatching
    || strContains link urlForMatching

/-- SQL `ORDER BY l.updated_at DESC LIMIT 1` over the filtered rows (first row
wins on ties, matching an arbitrary-but-fixed SQL order for equal keys). -/
def pickLatest (ls : List Lead) : Option Lead :=
  ls.foldl
    (fun acc l =>
      match acc with
      | none => some l
      | some b => if l.updated_at > b.updated_at then some l else some b)
    none

/-- The lead lookup query of `handleConnectionAccepted` (lines 88–114):
join against `lead_social`, three URL alternatives, live rows only, most
recently updated match. -/
def findLead (st : Store) (normalizedUrl urlForMatching : String) : Option Lead :=
  pickLatest <| st.leads.filter fun l =>
    !l.is_deleted &&
      (match socialOf st l.id with
       | some link => socialUrlMatches link normalizedUrl urlForMatching
       | none => false)

/-- The `employees_cache` corroboration query (lines 122–128): exact URL or
global-stripped URL equal to `urlForMatching`. -/
def cacheFind (st : Store) (normalizedUrl urlForMatching : String) : Option CacheEntry :=
  st.employeesCache.find? fun e =>
    e.employee_linkedin_url == normalizedUrl
      || sqlStripUrl e.employee_linkedin_url == urlForMatching

/-- Millisecond constants. -/
def dayMs : Int := 24 * 60 * 60 * 1000

def sevenDaysMs : Int := 7 * dayMs

/-- Rows of the CHECK-2 query (lines 256–264): calls targeted at this lead,
tagged as LinkedIn-connection calls, within the trailing 7 days. -/
def recentTaggedCallsForLead (st : Store) (leadId : Nat) (now : Int) : List CallLog :=
  st.callLogs.filter fun c =>
    c.target == some leadId
      && strContains c.added_context "LinkedIn connection request"
      && now - sevenDaysMs < c.started_at

/-- The CHECK-3 query (lines 343–353): a tagged recent call joined to a lead
whose phone equals the given number. -/
def hasRecentTaggedCallForPhone (st : Store) (phone : String) (now : Int) : Bool :=
  st.callLogs.any fun c =>
    (match c.target with
     | some tid => st.leads.any fun l => l.id == tid && l.phone == some phone
     | none => false)
      && strContains c.added_context "LinkedIn connection request"
      && now - sevenDaysMs < c.started_at

/-- SQL `ORDER BY display_order ASC LIMIT 1` (first row wins on ties). -/
def pickFirstStage (ls : List StageRow) : Option StageRow :=
  ls.foldl
    (fun acc s =>
      match acc with
      | none => some s
      | some b => if s.display_order < b.display_order then some s else some b)
    none

/-- The accepted-stage key lookup (lines 294–308): organization-scoped fuzzy
key match with the literal fallback. A `NULL` organization id matches no row. -/
def acceptedStageKey (st : Store) (orgId : Option Nat) : String :=
  match orgId with
  | none => "request_accepted"
  | some oid =>
    match
      pickFirstStage <| st.leadStages.filter fun s =>
        s.organization_id == oid
          && (strContains (lowerStr s.key) "request_accepted"
            || strContains (lowerStr s.key) "connection_accepted"
            || strContains (lowerStr s.key) "accepted")
    with
    | some s => s.key
    | none => "request_accepted"

/-- SQL `LOWER(key) LIKE '%call%triggered%'`: `call` somewhere, then `triggered`
somewhere after it. -/
def likeCallThenTriggered (k : String) : Bool :=
  match afterSub "call".data k.data with
  | some rest => hasSub "triggered".data rest
  | none => false

/-- The call-triggered-stage key lookup of `triggerAutoCall`
(lines 908–921). -/
def callTriggeredStageKey (st : Store) (orgId : Option Nat) : String :=
  match orgId with
  | none => "call_triggered"
  | some oid =>
    match
      pickFirstStage <| st.leadStages.filter fun s =>
        s.organization_id == oid
          && (strContains (lowerStr s.key) "call_triggered"
            || likeCallThenTriggered (lowerStr s.key)
            || strContains (lowerStr s.key) "triggered")
    with
    | some s => s.key
    | none => "call_triggered"

/-- The organization lookup for auto-created leads (lines 167–178): any
active integration with a Unipile account id and a non-null organization. -/
def integrationOrg (st : Store) : Option Nat :=
  (st.integrations.find? fun r =>
      r.is_active && r.unipile_account_id.isSome && r.organization_id.isSome).bind
    (·.organization_id)

/-- Table `organization_settings` lookup of `default_agent_id` (lines 856–866). -/
def orgDefaultAgent (st : Store) (orgId : Option Nat) : Option String :=
  match orgId with
  | none => none
  | some oid =>
    (st.orgSettings.find? fun s => s.organization_id == oid && s.key == "default_agent_id").map
      (·.value)

/-! ## Event deduplication (lines 38–60)

`this.processedEvents` is a JS `Set` (insertion-ordered); we model it as a
`List String` in insertion order.  `values().next().value` is the oldest
element, i.e. the head. -/

/-- Insert a fingerprint known to be absent, then evict the oldest entry when
the size exceeds 1000 (`if (size > 1000) delete(first)`). -/
def dedupAdd (s : List String) (f : String) : List String :=
  let grown := s ++ [f]
  if 1000 < grown.length then grown.tail else grown

/-- One event's effect on the recency set: membership hit leaves the set
unchanged (the handler returns before inserting), miss inserts with
eviction. -/
def dedupStep (s : List String) (f : String) : List String :=
  if f ∈ s then s else dedupAdd s f

/-- The fingerprint `${payload.timestamp || Date.now()}_${subject}` where the
subject is `user_profile_url || user_public_identifier || 'unknown'` on the
data object. -/
def eventFingerprint (env : Env) (p : Payload) : String :=
  let d := eventDataOf p
  let subj := (jsChain [d.user_profile_url, d.user_public_identifier]).getD "unknown"
  let ts : Int := match jsValI p.timestamp with | some t => t | none => env.now
  toString ts ++ "_" ++ subj

/-! ## Results and traces -/

/-- The JSON object a `handleConnectionAccepted` run resolves with
(`none` models the bare `return;` on a missing subject URL). -/
structure HookResult where
  success : Bool
  error : Option String := none
  eventId : Option String := none
  skipped : Bool := false
  reason : Option String := none
  leadId : Option Nat := none
  updatedStatus : Option String := none
  timestamp : Option Int := none
  existingCallId : Option Nat := none
  callCount : Option Nat := none
deriving DecidableEq, Repr

/-- Which mutation sites of one invocation executed.  Every mutation site in
the source occurs at most once per call (straight-line code, no loops), so
each is an `Option`.
* `createdLead` — the `INSERT INTO leads` of the auto-creation path, with the
  inserted `(id, status, stage)`;
* `socialUpsert` — the `lead_social` upsert, `(lead_id, linkedin)`;
* `acceptUpdate` — the `UPDATE leads SET status='request_accepted', stage=$1`,
  with `(lead_id, previous stage, new stage key)`;
* `phoneSet` — the guarded phone write of `revealPhoneNumber`;
* `callDispatch` — the `POST /api/voiceagent/calls`, `(lead_id, cleaned phone)`;
* `callStageUpdate` — the `UPDATE` to the call-triggered stage inside
  `triggerAutoCall`, `(lead_id, previous stage, new stage key)`. -/
structure Trace where
  createdLead : Option (Nat × String × String) := none
  socialUpsert : Option (Nat × String) := none
  acceptUpdate : Option (Nat × String × String) := none
  phoneSet : Option (Nat × String) := none
  callDispatch : Option (Nat × String) := none
  callStageUpdate : Option (Nat × String × String) := none
deriving DecidableEq, Repr

/-- In-memory service state: database plus the process-lifetime recency set. -/
structure SvcState where
  store : Store
  processedEvents : List String
deriving DecidableEq, Repr

/-- Full outcome of one `handleConnectionAccepted` invocation. -/
structure HandlerOut where
  result : Option HookResult
  state : SvcState
  trace : Trace
deriving DecidableEq, Repr

/-- Result `{ success:false, error:'Duplicate event - already processed', eventId }`. -/
def duplicateResult (fp : String) : HookResult :=
  { success := false, error := some "Duplicate event - already processed", eventId := some fp }

/-- Result `{ success:true, skipped:true, reason:'not_in_employees_cache', ... }`. -/
def notInCacheResult : HookResult :=
  { success := true, skipped := true, reason := some "not_in_employees_cache" }

/-- Result `{ success:true, leadId, skipped:true, reason:'acceptance_too_old', timestamp }`. -/
def staleResult (leadId : Nat) (ts : Int) : HookResult :=
  { success := true, leadId := some leadId, skipped := true
    reason := some "acceptance_too_old", timestamp := some ts }

/-- Result `{ success:true, leadId, skipped:true, reason:'call_already_made', ... }`. -/
def callMadeResult (leadId : Nat) (callId : Option Nat) (count : Nat) : HookResult :=
  { success := true, leadId := some leadId, skipped := true
    reason := some "call_already_made", existingCallId := callId, callCount := some count }

/-- Result `{ success:true, leadId, skipped:true, reason:'stage_already_call_triggered' }`. -/
def stageTriggeredResult (leadId : Nat) : HookResult :=
  { success := true, leadId := some leadId, skipped := true
    reason := some "stage_already_call_triggered" }

/-- Result `{ success:true, leadId, skipped:true, reason:'call_already_made_for_phone' }`. -/
def phoneCallMadeResult (leadId : Nat) : HookResult :=
  { success := true, leadId := some leadId, skipped := true
    reason := some "call_already_made_for_phone" }

/-- The final success result `{ success:true, leadId, updatedStatus:'request_accepted', ... }`. -/
def finalResult (leadId : Nat) : HookResult :=
  { success := true, leadId := some leadId, updatedStatus := some "request_accepted" }

/-! ## Subject extraction and auto-creation helpers -/

/-- The ordered URL candidate chain of lines 66–71. -/
def extractLinkedinUrl (p : Payload) : Option String :=
  let d := eventDataOf p
  let r := d.recipient.getD emptyRecipient
  jsChain [d.user_profile_url, r.linkedin_profile_url, r.profile_url,
    r.linkedin_url, d.linkedin_url, d.profile_url]

/-- Split a character list on a separator (JS `split('-')`). -/
def splitOnChar (sep : Char) : List Char → List (List Char)
  | [] => [[]]
  | c :: rest =>
    match splitOnChar sep rest with
    | [] => [[c]]
    | g :: gs => if c = sep then [] :: g :: gs else (c :: g) :: gs

/-- JS `/^\d+$/.test(s)`: nonempty and all digits. -/
def isAllDigits (s : List Char) : Bool := !s.isEmpty && s.all (·.isDigit)

/-- JS `p.charAt(0).toUpperCase() + p.slice(1)`. -/
def capFirst : List Char → List Char
  | [] => []
  | c :: rest => c.toUpper :: rest

/-- JS `parts.join(' ')`. -/
def joinSpace : List (List Char) → List Char
  | [] => []
  | [x] => x
  | x :: xs => x ++ ' ' :: joinSpace xs

/-- The lead-name resolution of lines 143–160: explicit name fields, else
capitalized non-numeric hyphen segments of the public identifier, else the
`'LinkedIn User'` placeholder. -/
def resolveFullName (p : Payload) : String :=
  let d := eventDataOf p
  let r := d.recipient.getD emptyRecipient
  let fromFields := jsChain [d.user_full_name, d.full_name, d.ev_name, r.full_name, r.rec_name]
  let fromId :=
    match fromFields, jsValS d.user_public_identifier with
    | none, some pubId =>
      let parts := (splitOnChar '-' pubId.data).filter fun seg => !isAllDigits seg
      if parts.isEmpty then none else some (String.mk (joinSpace (parts.map capFirst)))
    | o, _ => o
  match fromId with
  | some s => if trimChars s.data = [] then "LinkedIn User" else s
  | none => "LinkedIn User"

/-- The `INSERT INTO leads ... RETURNING` of the auto-creation path
(lines 184–205). -/
def createLead (env : Env) (st : Store) (fullName : String) (orgId : Option Nat) :
    Lead × Store :=
  let lead : Lead :=
    { id := st.nextLeadId, name := fullName, status := "request_accepted"
      stage := "request_accepted", organization_id := orgId, phone := none
      email := none, job_title := none, company := none, updated_at := env.now
      is_deleted := false }
  (lead, { st with leads := st.leads ++ [lead], nextLeadId := st.nextLeadId + 1 })

/-- SQL `INSERT INTO lead_social ... ON CONFLICT (lead_id) DO UPDATE` (lines 216–221). -/
def upsertSocial (st : Store) (leadId : Nat) (url : String) : Store :=
  if st.leadSocial.any fun e => e.1 == leadId then
    { st with
      leadSocial := st.leadSocial.map fun e => if e.1 == leadId then (e.1, url) else e }
  else { st with leadSocial := st.leadSocial ++ [(leadId, url)] }

/-- The acceptance `UPDATE leads SET status='request_accepted', stage=$1,
updated_at=CURRENT_TIMESTAMP WHERE id=$2 RETURNING ...` (lines 311–320).
The WHERE-id row always exists here (the lead was just matched or created),
so the returned row is the record update itself. -/
def applyAcceptUpdate (env : Env) (st : Store) (lead : Lead) (key : String) :
    Lead × Store :=
  let updated := { lead with status := "request_accepted", stage := key, updated_at := env.now }
  (updated,
    { st with leads := st.leads.map fun l => if l.id == lead.id then
        { l with status := "request_accepted", stage := key, updated_at := env.now } else l })

/-- SQL `SELECT ... FROM leads WHERE id = $1` re-read (lines 334–337). -/
def findLeadById (st : Store) (leadId : Nat) : Option Lead :=
  st.leads.find? fun l => l.id == leadId

/-! ## `revealPhoneNumber` (lines 717–782) -/

/-- Result object of `revealPhoneNumber` (`fromLinkedIn` is never set by the
current source — the direct-profile check is an explicit placeholder). -/
structure RevealResult where
  success : Bool
  alreadyExists : Bool := false
  fromCache : Bool := false
  fromLinkedIn : Bool := false
  phone : Option String := none
  error : Option String := none
deriving DecidableEq, Repr

/-- The cache query of `revealPhoneNumber` (lines 731–737): exact URL, or
globally scheme/`www`-stripped equality of *both* sides. -/
def revealCacheFind (st : Store) (url : String) : Option CacheEntry :=
  st.employeesCache.find? fun e =>
    e.employee_linkedin_url == url
      || sqlStripUrl e.employee_linkedin_url == sqlStripUrl url

/-- JS `revealPhoneNumber(lead, linkedinUrl)`: keep an existing phone; else copy
a cached phone onto the lead (write guarded by `phone IS NULL OR phone=''`);
else report the explicit not-implemented fallback failure.  Returns the
result, the store, and the executed guarded phone write (if any). -/
def revealPhoneNumber (env : Env) (st : Store) (lead : Lead) (url : String) :
    RevealResult × Store × Option (Nat × String) :=
  match jsValS lead.phone with
  | some ph => ({ success := true, alreadyExists := true, phone := some ph }, st, none)
  | none =>
    match revealCacheFind st url with
    | some e =>
      match jsValS e.employee_phone with
      | some ph =>
        ({ success := true, fromCache := true, phone := some ph },
          { st with leads := st.leads.map fun l =>
              if l.id == lead.id && (l.phone == none || l.phone == some "") then
                { l with phone := some ph, updated_at := env.now }
              else l },
          some (lead.id, ph))
      | none =>
        ({ success := false, error := some "No phone number available" }, st, none)
    | none =>
      ({ success := false, error := some "No phone number available" }, st, none)

/-! ## `triggerAutoCall` (lines 787–955) -/

/-- Result object of `triggerAutoCall`. -/
structure CallTriggerResult where
  success : Bool
  leadId : Nat
  error : Option String := none
  phone : Option String := none
  agentId : Option String := none
deriving DecidableEq, Repr

/-- Full outcome of one `triggerAutoCall` invocation: result, store, and the
two possible effects (the call dispatch and the call-triggered stage
update). -/
structure TrigOut where
  result : CallTriggerResult
  store : Store
  dispatch : Option (Nat × String) := none
  stageEff : Option (Nat × String × String) := none
deriving DecidableEq, Repr

/-- The phone-cleaning of lines 831–840: trim, strip whitespace, dashes,
parentheses and dots, then keep only digits (preserving one leading `+`). -/
def cleanPhone (s : String) : String :=
  let s1 := (trimChars s.data).filter fun c => !isWs c
  let s2 := s1.filter (· ≠ '-')
  let s3 := s2.filter fun c => c ≠ '(' && c ≠ ')' && c ≠ '.'
  match s3 with
  | '+' :: rest => ⟨'+' :: rest.filter (·.isDigit)⟩
  | other => ⟨other.filter (·.isDigit)⟩

/-- The fallback phone query of `triggerAutoCall` (lines 804–811): exact URL
match with a non-null, non-empty phone. -/
def trigCachePhone (st : Store) (url : String) : Option String :=
  (st.employeesCache.find? fun e =>
      e.employee_linkedin_url == url
        && e.employee_phone.isSome && !(e.employee_phone == some "")).bind
    (·.employee_phone)

/-- JS `triggerAutoCall(lead, linkedinUrl)`.  The call-dispatch outcome (a
response object, or a thrown transport error / timeout) is supplied by
`env.callOutcome`.  On `callResponse.data?.success !== false` the lead's
stage is updated to the call-triggered key; on an explicitly failed response
or a thrown error the store is left untouched and a failure result is
returned. -/
def triggerAutoCall (env : Env) (st : Store) (lead : Lead) (url : String) : TrigOut :=
  if !env.autoCallEnabled then
    { result := { success := false, leadId := lead.id, error := some "Auto-call is disabled" }
      store := st }
  else
    let phoneNumber :=
      match jsValS lead.phone with
      | some p => some p
      | none => trigCachePhone st url
    match phoneNumber with
    | none =>
      let r : CallTriggerResult :=
        { success := false, leadId := lead.id, error := some "No phone number available" }
      { result := r, store := st }
    | some ph =>
      let clean := cleanPhone ph
      if clean = "" || clean.data.length < 5 then
        let r : CallTriggerResult :=
          { success := false, leadId := lead.id, error := some "Invalid phone number format" }
        { result := r, store := st }
      else
        let agentId :=
          match jsValS (orgDefaultAgent st lead.organization_id) with
          | some a => a
          | none => (jsValS env.defaultAgentId).getD "24"
        match env.callOutcome with
        | .err msg =>
          { result := { success := false, leadId := lead.id, error := some msg }
            store := st, dispatch := some (lead.id, clean) }
        | .resp r =>
          if callInitiatedOf (.resp r) then
            let key := callTriggeredStageKey st lead.organization_id
            let r : CallTriggerResult :=
              { success := true, leadId := lead.id, phone := some clean
                agentId := some agentId }
            let st2 : Store :=
              { st with leads := st.leads.map fun l =>
                  if l.id == lead.id then
                    { l with stage := key, status := "call_triggered", updated_at := env.now }
                  else l }
            { result := r, store := st2, dispatch := some (lead.id, clean)
              stageEff := some (lead.id, lead.stage, key) }
          else
            let r : CallTriggerResult :=
              { success := false, leadId := lead.id, phone := some clean
                agentId := some agentId }
            { result := r, store := st, dispatch := some (lead.id, clean) }

/-! ## `handleConnectionAccepted` (lines 36–410) -/

/-- SQL `ORDER BY started_at DESC LIMIT 1` over call logs. -/
def pickLatestCall (ls : List CallLog) : Option CallLog :=
  ls.foldl
    (fun acc c =>
      match acc with
      | none => some c
      | some b => if c.started_at > b.started_at then some c else some b)
    none

/-- Guards and transition once a lead is resolved (lines 232–405):
staleness check, recent-call guard, stage guard, acceptance update, phone
reveal, post-reveal phone-call guard, and the guarded auto-call trigger.
`tr0` carries the effects of the auto-creation path, if it ran. -/
def withLeadGuards (env : Env) (store : Store) (normalizedUrl : String)
    (lead : Lead) (tr0 : Trace) : Option HookResult × Store × Trace :=
  let calls := recentTaggedCallsForLead store lead.id env.now
  if calls.length > 0 then
    (some (callMadeResult lead.id ((pickLatestCall calls).map (·.id)) calls.length), store, tr0)
  else if lead.stage = "call_triggered" then
    (some (stageTriggeredResult lead.id), store, tr0)
  else
    let key := acceptedStageKey store lead.organization_id
    let updated := applyAcceptUpdate env store lead key
    let tr1 := { tr0 with acceptUpdate := some (lead.id, lead.stage, key) }
    let revealed := revealPhoneNumber env updated.2 updated.1 normalizedUrl
    let tr2 := { tr1 with phoneSet := revealed.2.2 }
    let store2 := revealed.2.1
    let leadWithPhone := (findLeadById store2 updated.1.id).getD updated.1
    let phoneNumber :=
      jsOrS leadWithPhone.phone (if revealed.1.success then revealed.1.phone else none)
    if (match phoneNumber with
        | some ph => hasRecentTaggedCallForPhone store2 ph env.now
        | none => false) then
      (some (phoneCallMadeResult lead.id), store2, tr2)
    else if env.autoCallEnabled && !env.batchModeEnabled then
      if (match leadWithPhone.phone with
          | some s => s != "" && !(trimChars s.data).isEmpty
          | none => false) then
        let tout := triggerAutoCall env store2 leadWithPhone normalizedUrl
        (some (finalResult lead.id), tout.store,
          { tr2 with callDispatch := tout.dispatch, callStageUpdate := tout.stageEff })
      else if revealed.1.success && revealed.1.fromLinkedIn
          && revealed.1.phone.isSome then
        let tout := triggerAutoCall env store2
          { leadWithPhone with phone := revealed.1.phone } normalizedUrl
        (some (finalResult lead.id), tout.store,
          { tr2 with callDispatch := tout.dispatch, callStageUpdate := tout.stageEff })
      else (some (finalResult lead.id), store2, tr2)
    else
      (some (finalResult lead.id), store2, tr2)

/-- CHECK 1 plus the guarded continuation: skip acceptances older than 24
hours (lines 232–253), otherwise run the guards and transition. -/
def withLead (env : Env) (store : Store) (p : Payload) (normalizedUrl : String)
    (lead : Lead) (tr0 : Trace) : Option HookResult × Store × Trace :=
  match effectiveStaleTs p with
  | some t =>
    if t < env.now - dayMs then (some (staleResult lead.id t), store, tr0)
    else withLeadGuards env store normalizedUrl lead tr0
  | none => withLeadGuards env store normalizedUrl lead tr0

/-- Everything after the dedup gate (lines 62–405): subject extraction,
normalization, lead matching, cache-gated auto-creation, then the guarded
transition. -/
def processAfterDedup (env : Env) (store : Store) (p : Payload) :
    Option HookResult × Store × Trace :=
  match extractLinkedinUrl p with
  | none => (none, store, {})
  | some rawUrl =>
    let normalizedUrl := normalizedOf rawUrl
    let urlForMatching := jsStripSchemeWww normalizedUrl
    match findLead store normalizedUrl urlForMatching with
    | some lead => withLead env store p normalizedUrl lead {}
    | none =>
      match cacheFind store normalizedUrl urlForMatching with
      | none => (some notInCacheResult, store, {})
      | some _ =>
        let created := createLead env store (resolveFullName p) (integrationOrg store)
        let store2 := upsertSocial created.2 created.1.id normalizedUrl
        withLead env store2 p normalizedUrl created.1
          { createdLead := some (created.1.id, "request_accepted", "request_accepted")
            socialUpsert := some (created.1.id, normalizedUrl) }

/-- JS `handleConnectionAccepted(payload)`: the dedup gate (fingerprint check,
insertion, FIFO eviction — lines 38–60) wrapped around the processing
pipeline. -/
def handleConnectionAccepted (env : Env) (st : SvcState) (p : Payload) : HandlerOut :=
  let fp := eventFingerprint env p
  if fp ∈ st.processedEvents then
    { result := some (duplicateResult fp), state := st, trace := {} }
  else
    let out := processAfterDedup env st.store p
    { result := out.1
      state := { store := out.2.1, processedEvents := dedupAdd st.processedEvents fp }
      trace := out.2.2 }

/-! ## The controller dispatcher `handleWebhook`
(SocialIntegrationController.js lines 858–960) -/

/-- Response body `{ success, message | error }`. -/
structure BodyOut where
  success : Bool
  message : Option String := none
  error : Option String := none
deriving DecidableEq, Repr

structure HttpResponse where
  status : Nat
  body : BodyOut
deriving DecidableEq, Repr

/-- The dispatcher's view of an inbound payload: presence of the
`AccountStatus` wrapper, and the `event`/`type`/`object` candidates. -/
structure InboundPayload where
  accountStatus : Bool
  event : Option String
  typeField : Option String
  objectField : Option String
deriving DecidableEq, Repr

/-- Logical routing targets of the event switch. -/
inductive Routed where
  | accepted
  | sent
  | declined
  | accountChange
  | messageReceived
deriving DecidableEq, Repr

/-- The `switch (event)` of lines 905–941 with its alias case lists. -/
def classifyEvent : Option String → Option Routed
  | some "connection.accepted" => some .accepted
  | some "invitation.accepted" => some .accepted
  | some "new_relation" => some .accepted
  | some "relation" => some .accepted
  | some "connection.sent" => some .sent
  | some "invitation.sent" => some .sent
  | some "connection.declined" => some .declined
  | some "invitation.declined" => some .declined
  | some "account.status_changed" => some .accountChange
  | some "account.status" => some .accountChange
  | some "account.state_changed" => some .accountChange
  | some "account.state" => some .accountChange
  | some "message.received" => some .messageReceived
  | _ => none

/-- Whether the routed case awaits a service handler (the
`message.received` case and the default case run no handler and cannot
throw). -/
def invokesHandler (r : Option Routed) : Bool :=
  match r with
  | some .accepted => true
  | some .sent => true
  | some .declined => true
  | some .accountChange => true
  | some .messageReceived => false
  | none => false

/-- What the awaited service handler did: returned, or threw. -/
inductive ExecOutcome where
  | ok
  | threw (msg : String)
deriving DecidableEq, Repr

/-- JS `handleWebhook(req, res)`: the AccountStatus wrapper takes priority;
generic events are classified via `payload.event || payload.type ||
payload.object`; every path — success, skip, unrecognized type, or a thrown
internal error — answers HTTP 200, with failures reported only in the body. -/
def handleWebhook (p : InboundPayload) (outcome : ExecOutcome) : HttpResponse :=
  if p.accountStatus then
    match outcome with
    | .ok =>
      ⟨200, { success := true
              message := some "AccountStatus webhook received and processed" }⟩
    | .threw e =>
      ⟨200, { success := false, error := some e
              message := some "Webhook received but processing failed" }⟩
  else
    let ev := jsChain [p.event, p.typeField, p.objectField]
    if invokesHandler (classifyEvent ev) then
      match outcome with
      | .ok => ⟨200, { success := true, message := some "Webhook received and processed" }⟩
      | .threw e =>
        ⟨200, { success := false, error := some e
                message := some "Webhook received but processing failed" }⟩
    else ⟨200, { success := true, message := some "Webhook received and processed" }⟩

/-! ## Derived observations used in the claim statements -/

/-- CHECK 1 as a predicate: the event carries a (truthy) timestamp older
than 24 hours relative to receipt time. -/
def isStale (env : Env) (p : Payload) : Bool :=
  match effectiveStaleTs p with
  | some t => decide (t < env.now - dayMs)
  | none => false

/-- Number of *stage-changing* acceptance transitions recorded in a trace
(executions of the acceptance `UPDATE` whose stage key differs from the
lead's previous stage). -/
def acceptTransCount (tr : Trace) : Nat :=
  match tr.acceptUpdate with
  | some (_, o, k) => if o = k then 0 else 1
  | none => 0

/-- Number of call-placement attempts (dispatches to the voice-agent API)
recorded in a trace. -/
def dispatchCount (tr : Trace) : Nat :=
  if tr.callDispatch.isSome then 1 else 0

/-! ## Dedup-set lemmas -/

theorem mem_dedupAdd_self (l : List String) (f : String) : f ∈ dedupAdd l f := by
  simp only [dedupAdd]
  split
  · rename_i h
    cases l with
    | nil => simp at h
    | cons a as => simp
  · simp

theorem dedupStep_length_le (s : List String) (f : String) (h : s.length ≤ 1000) :
    (dedupStep s f).length ≤ 1000 := by
  simp only [dedupStep, dedupAdd]
  by_cases hm : f ∈ s
  · simpa [hm]
  · rw [if_neg hm]
    have hlen : (s ++ [f]).length = s.length + 1 := by simp
    by_cases hl : 1000 < (s ++ [f]).length
    · rw [if_pos hl]
      rw [List.length_tail, hlen]
      omega
    · rw [if_neg hl]
      rw [hlen]
      rw [hlen] at hl
      omega

/-- The recency set after processing a `Nodup` fingerprint list from empty is
exactly the list's last 1000 elements, in order (strict FIFO eviction). -/
theorem foldl_dedupStep_eq_drop (l : List String) (h : l.Nodup) :
    l.foldl dedupStep [] = l.drop (l.length - 1000) := by
  induction l using List.reverseRecOn with
  | nil => simp
  | append_singleton xs x ih =>
    have hpair : xs.Nodup ∧ x ∉ xs := by
      rw [List.nodup_append] at h
      refine ⟨h.1, fun hm => ?_⟩
      exact h.2.2 hm (by simp)
    have hx : x ∉ xs := hpair.2
    rw [List.foldl_append, List.foldl_cons, List.foldl_nil, ih hpair.1]
    have hxd : x ∉ xs.drop (xs.length - 1000) := fun hm => hx (List.mem_of_mem_drop hm)
    simp only [dedupStep]
    rw [if_neg hxd]
    simp only [dedupAdd]
    by_cases hlen : xs.length ≤ 999
    · have hk : xs.length - 1000 = 0 := by omega
      rw [hk, List.drop_zero]
      have hng : ¬ 1000 < (xs ++ [x]).length := by
        simp only [List.length_append, List.length_singleton]
        omega
      rw [if_neg hng]
      have hz : (xs ++ [x]).length - 1000 = 0 := by
        simp only [List.length_append, List.length_singleton]
        omega
      rw [hz, List.drop_zero]
    · have hge : 1000 ≤ xs.length := by omega
      have hdlen : (xs.drop (xs.length - 1000)).length = 1000 := by
        rw [List.length_drop]
        omega
      have hg : 1000 < (xs.drop (xs.length - 1000) ++ [x]).length := by
        simp only [List.length_append, List.length_singleton, hdlen]
        omega
      rw [if_pos hg]
      have htail : (xs.drop (xs.length - 1000) ++ [x]).tail
          = xs.drop (xs.length - 1000 + 1) ++ [x] := by
        rw [← List.drop_one, List.drop_append_of_le_length (by omega), List.drop_drop]
      rw [htail]
      have harith : (xs ++ [x]).length - 1000 = xs.length - 1000 + 1 := by
        simp only [List.length_append, List.length_singleton]
        omega
      rw [harith, List.drop_append_of_le_length (by omega)]

/-- Fingerprints of payloads carrying a truthy timestamp do not depend on the
receipt clock. -/
theorem eventFingerprint_env_eq (env1 env2 : Env) (p : Payload)
    (h : (jsValI p.timestamp).isSome) :
    eventFingerprint env1 p = eventFingerprint env2 p := by
  simp only [eventFingerprint]
  cases hj : jsValI p.timestamp with
  | some t => simp [hj]
  | none =>
    rw [hj] at h
    simp at h

/-- Running the handler twice in sequence on a payload with a truthy
timestamp: the second run is rejected by the dedup gate, leaving state
untouched and producing no effects. -/
theorem handle_again_duplicate (env1 env2 : Env) (st : SvcState) (p : Payload)
    (t : Int) (ht : p.timestamp = some t) (h0 : t ≠ 0) :
    handleConnectionAccepted env2 (handleConnectionAccepted env1 st p).state p
      = { result := some (duplicateResult (eventFingerprint env2 p))
          state := (handleConnectionAccepted env1 st p).state
          trace := {} } := by
  have hjs : (jsValI p.timestamp).isSome := by
    simp only [jsValI, ht]
    simp [h0]
  have hmem : eventFingerprint env2 p
      ∈ (handleConnectionAccepted env1 st p).state.processedEvents := by
    rw [eventFingerprint_env_eq env2 env1 p hjs]
    simp only [handleConnectionAccepted]
    by_cases hm : eventFingerprint env1 p ∈ st.processedEvents
    · simp [hm]
    · simp only [if_neg hm]
      exact mem_dedupAdd_self _ _
  set s1 := (handleConnectionAccepted env1 st p).state
  simp only [handleConnectionAccepted]
  rw [if_pos hmem]

/-! ## Preservation lemmas for the guarded-transition stage -/

theorem upsertSocial_leads (st : Store) (leadId : Nat) (url : String) :
    (upsertSocial st leadId url).leads = st.leads := by
  simp only [upsertSocial]
  split <;> rfl

theorem applyAcceptUpdate_leads_length (env : Env) (st : Store) (lead : Lead) (key : String) :
    (applyAcceptUpdate env st lead key).2.leads.length = st.leads.length := by
  simp [applyAcceptUpdate]

theorem revealPhoneNumber_leads_length (env : Env) (st : Store) (lead : Lead) (url : String) :
    ((revealPhoneNumber env st lead url).2.1).leads.length = st.leads.length := by
  simp only [revealPhoneNumber]
  repeat' split
  all_goals simp

theorem triggerAutoCall_leads_length (env : Env) (st : Store) (lead : Lead) (url : String) :
    (triggerAutoCall env st lead url).store.leads.length = st.leads.length := by
  simp only [triggerAutoCall]
  repeat' split
  all_goals simp

/-- The guarded-transition stage never creates leads: it preserves the
auto-creation trace fields and the number of lead rows. -/
theorem withLead_preserves (env : Env) (store : Store) (p : Payload)
    (nu : String) (lead : Lead) (tr0 : Trace) :
    ((withLead env store p nu lead tr0).2.2.createdLead = tr0.createdLead ∧
      (withLead env store p nu lead tr0).2.2.socialUpsert = tr0.socialUpsert) ∧
    (withLead env store p nu lead tr0).2.1.leads.length = store.leads.length := by
  simp only [withLead, withLeadGuards]
  repeat' split
  all_goals
    simp [triggerAutoCall_leads_length, revealPhoneNumber_leads_length,
      applyAcceptUpdate_leads_length]

/-- CHECK 1 fires: a truthy timestamp older than 24 hours short-circuits the
guarded-transition stage with the stale-skip result, leaving the store and
the incoming trace untouched. -/
theorem withLead_stale (env : Env) (store : Store) (p : Payload) (nu : String)
    (lead : Lead) (tr0 : Trace) (t : Int)
    (ht : effectiveStaleTs p = some t) (hs : t < env.now - dayMs) :
    withLead env store p nu lead tr0 = (some (staleResult lead.id t), store, tr0) := by
  simp only [withLead]
  rw [ht]
  simp [hs]

/-- CHECK 2 / the stage guard fire on `withLeadGuards`. -/
theorem withLeadGuards_guarded (env : Env) (store : Store) (nu : String)
    (lead : Lead) (tr0 : Trace)
    (hg : lead.stage = "call_triggered"
        ∨ recentTaggedCallsForLead store lead.id env.now ≠ []) :
    ∃ r : HookResult,
      withLeadGuards env store nu lead tr0 = (some r, store, tr0) ∧
      r.skipped = true ∧ r.success = true ∧ r.leadId = some lead.id ∧
      (r.reason = some "call_already_made"
        ∨ r.reason = some "stage_already_call_triggered") := by
  by_cases hc : (recentTaggedCallsForLead store lead.id env.now).length > 0
  · refine ⟨callMadeResult lead.id
      ((pickLatestCall (recentTaggedCallsForLead store lead.id env.now)).map (·.id))
      (recentTaggedCallsForLead store lead.id env.now).length, ?_, rfl, rfl, rfl, Or.inl rfl⟩
    simp only [withLeadGuards]
    rw [if_pos hc]
  · have hstage : lead.stage = "call_triggered" := by
      rcases hg with hg | hg
      · exact hg
      · exact absurd (by simpa [List.length_pos] using hg) hc
    refine ⟨stageTriggeredResult lead.id, ?_, rfl, rfl, rfl, Or.inr rfl⟩
    simp only [withLeadGuards]
    rw [if_neg hc, if_pos hstage]

/-- CHECK 2 / the stage guard fire: for a non-stale event, a lead with a
recent tagged call or already at the literal `call_triggered` stage is
skipped with the corresponding reason, with no store change and no new
effects. -/
theorem withLead_guarded (env : Env) (store : Store) (p : Payload) (nu : String)
    (lead : Lead) (tr0 : Trace)
    (hns : isStale env p = false)
    (hg : lead.stage = "call_triggered"
        ∨ recentTaggedCallsForLead store lead.id env.now ≠ []) :
    ∃ r : HookResult,
      withLead env store p nu lead tr0 = (some r, store, tr0) ∧
      r.skipped = true ∧ r.success = true ∧ r.leadId = some lead.id ∧
      (r.reason = some "call_already_made"
        ∨ r.reason = some "stage_already_call_triggered") := by
  simp only [withLead]
  simp only [isStale] at hns
  split
  · rename_i t ht
    rw [ht] at hns
    simp only [decide_eq_false_iff_not] at hns
    rw [if_neg hns]
    exact withLeadGuards_guarded env store nu lead tr0 hg
  · exact withLeadGuards_guarded env store nu lead tr0 hg


/-- Characterization of a duplicate-gated run. -/
theorem handle_dup (env : Env) (st : SvcState) (p : Payload)
    (h : eventFingerprint env p ∈ st.processedEvents) :
    handleConnectionAccepted env st p
      = { result := some (duplicateResult (eventFingerprint env p)), state := st, trace := {} } := by
  simp only [handleConnectionAccepted]
  rw [if_pos h]

/-- Characterization of a run that passes the dedup gate. -/
theorem handle_not_dup (env : Env) (st : SvcState) (p : Payload)
    (h : eventFingerprint env p ∉ st.processedEvents) :
    handleConnectionAccepted env st p
      = { result := (processAfterDedup env st.store p).1
          state := { store := (processAfterDedup env st.store p).2.1
                     processedEvents := dedupAdd st.processedEvents (eventFingerprint env p) }
          trace := (processAfterDedup env st.store p).2.2 } := by
  simp only [handleConnectionAccepted]
  rw [if_neg h]

theorem acceptTransCount_le_one (tr : Trace) : acceptTransCount tr ≤ 1 := by
  simp only [acceptTransCount]
  split
  · split <;> omega
  · omega

theorem dispatchCount_le_one (tr : Trace) : dispatchCount tr ≤ 1 := by
  simp only [dispatchCount]
  split <;> omega

theorem acceptTransCount_empty : acceptTransCount {} = 0 := rfl

theorem dispatchCount_empty : dispatchCount {} = 0 := rfl

/-! ## Concrete fixtures (used by witnesses and counterexamples) -/

/-- A receipt clock of 1 000 000 000 000 ms with immediate auto-call enabled
and a successful call-dispatch response. -/
def exEnv : Env :=
  { now := 1000000000000, autoCallEnabled := true, batchModeEnabled := false
    callOutcome := .resp ⟨some ⟨some true⟩⟩, defaultAgentId := none }

/-- Same clock, call dispatch answers `{ success: false }`. -/
def exEnvFail1 : Env := { exEnv with callOutcome := .resp ⟨some ⟨some false⟩⟩ }

/-- Five ms later, call dispatch answers `{ success: false }`. -/
def exEnvFail2 : Env := { exEnvFail1 with now := 1000000000005 }

/-- Five ms later, successful dispatch. -/
def exEnvLater : Env := { exEnv with now := 1000000000005 }

/-- Transport error (timeout) from the call dispatch. -/
def exEnvErr : Env := { exEnv with callOutcome := .err "timeout of 10000ms exceeded" }

def exTop : EventData :=
  { user_profile_url := some "https://www.linkedin.com/in/jdoe"
    user_public_identifier := none, recipient := none, linkedin_url := none
    profile_url := none, user_full_name := none, full_name := none, ev_name := none
    timestamp := none }

def exLeadJdoe : Lead :=
  { id := 1, name := "Jane Doe", status := "request_sent", stage := "request_sent"
    organization_id := none, phone := some "+12345678", email := none
    job_title := none, company := none, updated_at := 0, is_deleted := false }

/-- One lead, linked to the canonical jdoe URL. -/
def exStoreA : Store :=
  { leads := [exLeadJdoe], leadSocial := [(1, "https://www.linkedin.com/in/jdoe")]
    employeesCache := [], callLogs := [], leadStages := [], integrations := []
    orgSettings := [], nextLeadId := 2 }

/-- No leads, no cache rows. -/
def exStoreEmpty : Store :=
  { leads := [], leadSocial := [], employeesCache := [], callLogs := []
    leadStages := [], integrations := [], orgSettings := [], nextLeadId := 1 }

/-- No leads; the jdoe URL is corroborated by the enrichment cache. -/
def exStoreCache : Store :=
  { leads := [], leadSocial := []
    employeesCache := [⟨some "Jane", "https://www.linkedin.com/in/jdoe", none, some "+12345678"⟩]
    callLogs := [], leadStages := [], integrations := [], orgSettings := [], nextLeadId := 1 }

/-- The jdoe lead already at the literal `call_triggered` stage. -/
def exLeadTrig : Lead := { exLeadJdoe with stage := "call_triggered" }

def exStoreTrig : Store := { exStoreA with leads := [exLeadTrig] }

/-- Acceptance payload for jdoe with a fresh explicit timestamp (1 ms before
receipt). -/
def exPayload : Payload := { timestamp := some 999999999999, data := none, top := exTop }

/-- Same subject, timestamp 25 hours (90 000 000 ms) before receipt. -/
def exPStale : Payload := { timestamp := some 999910000000, data := none, top := exTop }

/-- Fresh timestamp but no subject URL anywhere in the payload. -/
def exPNoUrl : Payload :=
  { timestamp := some 5, data := none, top := { exTop with user_profile_url := none } }

/-- jdoe subject with no timestamp at all. -/
def exPNoTs : Payload := { timestamp := none, data := none, top := exTop }

/-- Explicit timestamp `0` (falsy in JS) and no subject URL. -/
def exPZero : Payload :=
  { timestamp := some 0, data := none, top := { exTop with user_profile_url := none } }

def exEnvZ1 : Env := { exEnv with now := 1000 }

def exEnvZ2 : Env := { exEnv with now := 2000 }

/-- The fingerprint of `exPayload` under any receipt clock. -/
def exSeenFingerprint : String := "999999999999_https://www.linkedin.com/in/jdoe"


/-! ## Claim theorems -/

/-- Claim C6 — Normalization equivalence: the three accepted representations of
the same `/in/jdoe` profile URL (trailing slash + scheme + `www.`; bare
`http` scheme; schemeless with a query string) all normalize to the single
canonical string `https://www.linkedin.com/in/jdoe`. -/
theorem normalizeLinkedInUrl_equivalence :
    normalizeLinkedInUrl "https://www.linkedin.com/in/jdoe/"
        = some "https://www.linkedin.com/in/jdoe" ∧
    normalizeLinkedInUrl "http://linkedin.com/in/jdoe"
        = some "https://www.linkedin.com/in/jdoe" ∧
    normalizeLinkedInUrl "linkedin.com/in/jdoe?x=1"
        = some "https://www.linkedin.com/in/jdoe" := by
  refine ⟨?_, ?_, ?_⟩ <;> decide

/-- Claim C2, counterexample — the claim describes the duplicate result as a
"duplicate, skipped" result that is not an error; on a concrete duplicate
delivery the handler instead returns `success: false` with an `error`
message, no `skipped` flag and no `reason` code. -/
theorem duplicate_result_shape_counterexample :
    (handleConnectionAccepted exEnv ⟨exStoreA, [exSeenFingerprint]⟩ exPayload).result
        = some (duplicateResult exSeenFingerprint) ∧
    (duplicateResult exSeenFingerprint).skipped = false ∧
    (duplicateResult exSeenFingerprint).success = false ∧
    (duplicateResult exSeenFingerprint).error = some "Duplicate event - already processed" ∧
    (duplicateResult exSeenFingerprint).reason = none := by
  refine ⟨?_, ?_, ?_, ?_, ?_⟩ <;> decide

/-- Claim C2, amended — for every event whose fingerprint is already in the
dedup set, `handleConnectionAccepted` short-circuits with the duplicate
result (`success: false`, `error: 'Duplicate event - already processed'`,
carrying the fingerprint; returned, not thrown), and leaves the dedup set,
the store and hence all lead state unchanged, recording no effects. -/
theorem duplicate_short_circuit (env : Env) (st : SvcState) (p : Payload)
    (h : eventFingerprint env p ∈ st.processedEvents) :
    (handleConnectionAccepted env st p).result
        = some (duplicateResult (eventFingerprint env p)) ∧
    (handleConnectionAccepted env st p).state = st ∧
    (handleConnectionAccepted env st p).trace = {} := by
  rw [handle_dup env st p h]
  exact ⟨rfl, rfl, rfl⟩

/-- Witness for C2 at a concrete seeded dedup set. -/
theorem duplicate_short_circuit_witness :
    (handleConnectionAccepted exEnv ⟨exStoreA, [exSeenFingerprint]⟩ exPayload).result
        = some (duplicateResult (eventFingerprint exEnv exPayload)) ∧
    (handleConnectionAccepted exEnv ⟨exStoreA, [exSeenFingerprint]⟩ exPayload).state
        = ⟨exStoreA, [exSeenFingerprint]⟩ ∧
    (handleConnectionAccepted exEnv ⟨exStoreA, [exSeenFingerprint]⟩ exPayload).trace = {} :=
  duplicate_short_circuit exEnv ⟨exStoreA, [exSeenFingerprint]⟩ exPayload (by decide)

/-- Claim C5 — dedup bound and FIFO eviction: one dedup step never grows the
recency set beyond 1000 entries, and processing 1001 distinct fingerprints
from empty leaves exactly 1000 entries with the first-inserted fingerprint
evicted (hence re-processable). -/
theorem dedup_bound_fifo :
    (∀ (s : List String) (f : String), s.length ≤ 1000 → (dedupStep s f).length ≤ 1000) ∧
    (∀ (l : List String), l.Nodup → l.length = 1001 →
      (l.foldl dedupStep []).length = 1000 ∧
        ∀ h, l.head? = some h → h ∉ l.foldl dedupStep []) := by
  refine ⟨dedupStep_length_le, ?_⟩
  intro l hnd hlen
  have hdrop := foldl_dedupStep_eq_drop l hnd
  rw [hlen] at hdrop
  norm_num at hdrop
  constructor
  · rw [hdrop, List.length_tail, hlen]
  · intro h hh
    rw [hdrop]
    cases l with
    | nil => simp at hh
    | cons a t =>
      have ha : a = h := by simpa using hh
      subst ha
      have hniq : a ∉ t := (List.nodup_cons.mp hnd).1
      simpa using hniq

/-- A list of 1001 pairwise-distinct fingerprints (distinguished by length). -/
def fifoWitnessList : List String :=
  (List.range 1001).map fun n => ⟨List.replicate n 'a'⟩

theorem fifoWitnessList_nodup : fifoWitnessList.Nodup := by
  have hinj : Function.Injective fun n : Nat => (⟨List.replicate n 'a'⟩ : String) := by
    intro a b hab
    have hab' : String.mk (List.replicate a 'a') = String.mk (List.replicate b 'a') := hab
    have hd : List.replicate a 'a' = List.replicate b 'a' := congrArg String.data hab'
    have hl := congrArg List.length hd
    simpa using hl
  exact (List.nodup_range 1001).map hinj

theorem fifoWitnessList_length : fifoWitnessList.length = 1001 := by
  simp [fifoWitnessList]

/-- Witness for C5: the concrete 1001-fingerprint insertion and a concrete
full set. -/
theorem dedup_bound_fifo_witness :
    ((fifoWitnessList.foldl dedupStep []).length = 1000 ∧
      ∀ h, fifoWitnessList.head? = some h → h ∉ fifoWitnessList.foldl dedupStep []) ∧
    (dedupStep (List.replicate 1000 "x") "y").length ≤ 1000 :=
  ⟨dedup_bound_fifo.2 fifoWitnessList fifoWitnessList_nodup fifoWitnessList_length,
    dedup_bound_fifo.1 (List.replicate 1000 "x") "y" (le_of_eq (List.length_replicate 1000 "x"))⟩

/-- Claim C8 — `triggerAutoCall` performs the call-triggered stage transition
iff a dispatch happened and its response did not explicitly signal failure;
on an explicitly failed response or a thrown transport error it returns a
failure result and leaves the store (hence the lead's stage) unmutated; when
no dispatch happens at all it also fails without mutation; and any stage
effect is precisely the transition of this lead to the resolved
call-triggered stage key. -/
theorem trigger_auto_call_stage_iff (env : Env) (st : Store) (lead : Lead) (url : String) :
    ((triggerAutoCall env st lead url).stageEff.isSome
        ↔ ((triggerAutoCall env st lead url).dispatch.isSome
            ∧ callInitiatedOf env.callOutcome = true)) ∧
    ((triggerAutoCall env st lead url).dispatch.isSome →
      (triggerAutoCall env st lead url).result.success = callInitiatedOf env.callOutcome) ∧
    ((triggerAutoCall env st lead url).dispatch.isSome →
      callInitiatedOf env.callOutcome = false →
      (triggerAutoCall env st lead url).result.success = false
        ∧ (triggerAutoCall env st lead url).stageEff = none
        ∧ (triggerAutoCall env st lead url).store = st) ∧
    ((triggerAutoCall env st lead url).dispatch = none →
      (triggerAutoCall env st lead url).result.success = false
        ∧ (triggerAutoCall env st lead url).store = st) ∧
    (∀ lid old key, (triggerAutoCall env st lead url).stageEff = some (lid, old, key) →
      lid = lead.id ∧ old = lead.stage
        ∧ key = callTriggeredStageKey st lead.organization_id) := by
  simp only [triggerAutoCall]
  repeat' split
  all_goals simp_all [callInitiatedOf]

/-- Witness for C8: a concrete explicitly-failed dispatch leaves the lead
untouched and reports failure. -/
theorem trigger_auto_call_witness :
    (triggerAutoCall exEnvFail1 exStoreA exLeadJdoe "https://www.linkedin.com/in/jdoe").result.success
        = false ∧
    (triggerAutoCall exEnvFail1 exStoreA exLeadJdoe "https://www.linkedin.com/in/jdoe").stageEff
        = none ∧
    (triggerAutoCall exEnvFail1 exStoreA exLeadJdoe "https://www.linkedin.com/in/jdoe").store
        = exStoreA :=
  (trigger_auto_call_stage_iff exEnvFail1 exStoreA exLeadJdoe
    "https://www.linkedin.com/in/jdoe").2.2.1 (by decide) (by decide)

/-- Claim C9 — the webhook dispatcher answers HTTP 200 for every inbound
payload and every handler outcome — success, unrecognized event type, or a
thrown internal error alike; a thrown error of an invoked handler is
reported only in the body (`success: false` with the error message), and
non-throwing or non-invoking paths acknowledge with `success: true`. -/
theorem webhook_always_acknowledges (p : InboundPayload) (o : ExecOutcome) :
    (handleWebhook p o).status = 200 ∧
    (∀ e, o = .threw e →
      (p.accountStatus = true
        ∨ invokesHandler (classifyEvent (jsChain [p.event, p.typeField, p.objectField])) = true) →
      (handleWebhook p o).body.success = false ∧ (handleWebhook p o).body.error = some e) ∧
    (o = .ok → (handleWebhook p o).body.success = true) ∧
    (p.accountStatus = false →
      invokesHandler (classifyEvent (jsChain [p.event, p.typeField, p.objectField])) = false →
      (handleWebhook p o).body.success = true) := by
  by_cases ha : p.accountStatus <;>
    by_cases hi : invokesHandler (classifyEvent (jsChain [p.event, p.typeField, p.objectField])) <;>
      cases o <;> simp [handleWebhook, ha, hi]

/-- Witness for C9: a thrown handler error on a recognized event is still a
200 acknowledgment with the failure only in the body. -/
theorem webhook_always_acknowledges_witness :
    (handleWebhook ⟨false, some "new_relation", none, none⟩ (.threw "db down")).status = 200 ∧
    (handleWebhook ⟨false, some "new_relation", none, none⟩ (.threw "db down")).body.success
        = false ∧
    (handleWebhook ⟨false, some "new_relation", none, none⟩ (.threw "db down")).body.error
        = some "db down" := by
  have h := webhook_always_acknowledges ⟨false, some "new_relation", none, none⟩ (.threw "db down")
  refine ⟨h.1, ?_, ?_⟩
  · exact (h.2.1 "db down" rfl (Or.inr (by decide))).1
  · exact (h.2.1 "db down" rfl (Or.inr (by decide))).2

/-- Claim C10, counterexample — the claim quantifies over every payload
"carrying an explicit timestamp"; a payload with the explicit timestamp `0`
is falsy in JS, so the fingerprint falls back to the receipt clock: the
first delivery produces no effect (no subject URL) *and* the second
delivery is processed again instead of being rejected as a duplicate
(its result is the bare missing-URL return, not the duplicate result). -/
theorem dedup_zero_timestamp_counterexample :
    exPZero.timestamp = some 0 ∧
    (handleConnectionAccepted exEnvZ1 ⟨exStoreA, []⟩ exPZero).result = none ∧
    (handleConnectionAccepted exEnvZ2
        (handleConnectionAccepted exEnvZ1 ⟨exStoreA, []⟩ exPZero).state exPZero).result
      = none := by
  refine ⟨rfl, ?_, ?_⟩ <;> decide

/-- Claim C10, amended — the fingerprint is inserted before any subject-URL
extraction, matching, staleness or guard checks, so for every acceptance
payload carrying an explicit *nonzero* timestamp, an immediate second
delivery of the identical payload is rejected as a duplicate — with
unchanged state and no effects — even when the first invocation produced no
effect at all. -/
theorem dedup_inserted_before_checks (env1 env2 : Env) (st : SvcState) (p : Payload)
    (t : Int) (ht : p.timestamp = some t) (h0 : t ≠ 0) :
    (handleConnectionAccepted env2 (handleConnectionAccepted env1 st p).state p).result
        = some (duplicateResult (eventFingerprint env2 p)) ∧
    (handleConnectionAccepted env2 (handleConnectionAccepted env1 st p).state p).state
        = (handleConnectionAccepted env1 st p).state ∧
    (handleConnectionAccepted env2 (handleConnectionAccepted env1 st p).state p).trace
        = {} := by
  rw [handle_again_duplicate env1 env2 st p t ht h0]
  exact ⟨rfl, rfl, rfl⟩

/-- Witness for C10 at a concrete effect-free first delivery: the first run
finds no matching lead and no cache corroboration, yet the second delivery
is still rejected as a duplicate. -/
theorem dedup_inserted_before_checks_witness :
    ((handleConnectionAccepted exEnvLater
        (handleConnectionAccepted exEnv ⟨exStoreEmpty, []⟩ exPayload).state exPayload).result
      = some (duplicateResult (eventFingerprint exEnvLater exPayload)) ∧
    (handleConnectionAccepted exEnvLater
        (handleConnectionAccepted exEnv ⟨exStoreEmpty, []⟩ exPayload).state exPayload).state
      = (handleConnectionAccepted exEnv ⟨exStoreEmpty, []⟩ exPayload).state ∧
    (handleConnectionAccepted exEnvLater
        (handleConnectionAccepted exEnv ⟨exStoreEmpty, []⟩ exPayload).state exPayload).trace
      = {}) ∧
    (handleConnectionAccepted exEnv ⟨exStoreEmpty, []⟩ exPayload).result
      = some notInCacheResult :=
  ⟨dedup_inserted_before_checks exEnv exEnvLater ⟨exStoreEmpty, []⟩ exPayload
      999999999999 rfl (by decide),
    by decide⟩

/-- First run of the C3 counterexample's second scenario: no explicit
timestamp, explicitly failed call dispatch. -/
def exRunF1 : HandlerOut := handleConnectionAccepted exEnvFail1 ⟨exStoreA, []⟩ exPNoTs

/-- Second delivery of the same payload 5 ms later (fingerprints differ, so
the dedup gate does not fire and the call is dispatched again). -/
def exRunF2 : HandlerOut := handleConnectionAccepted exEnvFail2 exRunF1.state exPNoTs

/-- Claim C3, counterexample — two concrete refutations of the claim over
"every acceptance event payload": (i) a payload whose subject URL is missing
yields *zero* stage transitions across both runs, not exactly one; (ii) a
payload without an explicit timestamp whose first call dispatch explicitly
fails is dispatched *again* on the second delivery (fingerprints embed the
receipt clock), for two call-placement attempts in total. -/
theorem acceptance_idempotence_counterexample :
    (acceptTransCount (handleConnectionAccepted exEnv ⟨exStoreA, []⟩ exPNoUrl).trace
        + acceptTransCount (handleConnectionAccepted exEnv
            (handleConnectionAccepted exEnv ⟨exStoreA, []⟩ exPNoUrl).state exPNoUrl).trace
      = 0) ∧
    dispatchCount exRunF1.trace + dispatchCount exRunF2.trace = 2 := by
  refine ⟨?_, ?_⟩ <;> decide

/-- Claim C3, amended — for every acceptance payload carrying an explicit
nonzero timestamp, running the handler twice in sequence from any initial
state yields at most one (stage-changing) acceptance transition and at most
one call-placement attempt in total: the second run is a duplicate no-op,
and it yields exactly one acceptance transition precisely when the first
run applies a stage-changing acceptance update. -/
theorem acceptance_idempotent_with_timestamp (env1 env2 : Env) (st : SvcState) (p : Payload)
    (t : Int) (ht : p.timestamp = some t) (h0 : t ≠ 0) :
    acceptTransCount (handleConnectionAccepted env1 st p).trace
        + acceptTransCount (handleConnectionAccepted env2
            (handleConnectionAccepted env1 st p).state p).trace ≤ 1 ∧
    dispatchCount (handleConnectionAccepted env1 st p).trace
        + dispatchCount (handleConnectionAccepted env2
            (handleConnectionAccepted env1 st p).state p).trace ≤ 1 ∧
    (∀ lid old key,
      (handleConnectionAccepted env1 st p).trace.acceptUpdate = some (lid, old, key) →
      old ≠ key →
      acceptTransCount (handleConnectionAccepted env1 st p).trace
          + acceptTransCount (handleConnectionAccepted env2
              (handleConnectionAccepted env1 st p).state p).trace = 1) := by
  have h2 := handle_again_duplicate env1 env2 st p t ht h0
  simp only [h2, acceptTransCount_empty, dispatchCount_empty, Nat.add_zero]
  refine ⟨acceptTransCount_le_one _, dispatchCount_le_one _, ?_⟩
  intro lid old key hup hne
  simp only [acceptTransCount, hup]
  simp [hne]

/-- Witness for C3 at a concrete fresh acceptance: one transition and one
dispatch in total across both runs. -/
theorem acceptance_idempotent_witness :
    acceptTransCount (handleConnectionAccepted exEnv ⟨exStoreA, []⟩ exPayload).trace
        + acceptTransCount (handleConnectionAccepted exEnvLater
            (handleConnectionAccepted exEnv ⟨exStoreA, []⟩ exPayload).state exPayload).trace
      = 1 :=
  (acceptance_idempotent_with_timestamp exEnv exEnvLater ⟨exStoreA, []⟩ exPayload
      999999999999 rfl (by decide)).2.2
    1 "request_sent" "request_accepted" (by decide) (by decide)

/-- Claim C1, counterexample — a stale (25-hour-old) acceptance whose subject
is unknown as a lead but corroborated by the enrichment cache *does* create
a lead row (the auto-creation path runs before the staleness check), even
though the result is the stale skip; this contradicts "no lead row is
created". -/
theorem stale_event_counterexample :
    (handleConnectionAccepted exEnv ⟨exStoreCache, []⟩ exPStale).result
        = some (staleResult 1 999910000000) ∧
    (handleConnectionAccepted exEnv ⟨exStoreCache, []⟩ exPStale).trace.createdLead
        = some (1, "request_accepted", "request_accepted") ∧
    (handleConnectionAccepted exEnv ⟨exStoreCache, []⟩ exPStale).state.store.leads.length
        = 1 := by
  refine ⟨?_, ?_, ?_⟩ <;> decide

/-- Claim C1, amended — for every non-duplicate acceptance event with a
resolvable subject (an extracted URL that matches a lead or is corroborated
by the enrichment cache) and a truthy timestamp more than 24 hours before
receipt, the handler returns the skipped result with reason
`acceptance_too_old` and performs no acceptance update, no phone write, no
call dispatch and no call-stage update; existing lead rows are never
updated — at most a single auto-created row (with its profile link) is
appended before the staleness check fires. -/
theorem stale_event_no_mutation (env : Env) (st : SvcState) (p : Payload) (u : String)
    (t : Int)
    (hdup : eventFingerprint env p ∉ st.processedEvents)
    (hurl : extractLinkedinUrl p = some u)
    (hts : effectiveStaleTs p = some t)
    (hstale : t < env.now - dayMs)
    (hres : (findLead st.store (normalizedOf u) (jsStripSchemeWww (normalizedOf u))).isSome
        ∨ (cacheFind st.store (normalizedOf u) (jsStripSchemeWww (normalizedOf u))).isSome) :
    ∃ lid,
      (handleConnectionAccepted env st p).result = some (staleResult lid t) ∧
      (handleConnectionAccepted env st p).trace.acceptUpdate = none ∧
      (handleConnectionAccepted env st p).trace.phoneSet = none ∧
      (handleConnectionAccepted env st p).trace.callDispatch = none ∧
      (handleConnectionAccepted env st p).trace.callStageUpdate = none ∧
      ((handleConnectionAccepted env st p).state.store.leads = st.store.leads ∨
        ∃ nl, (handleConnectionAccepted env st p).state.store.leads
            = st.store.leads ++ [nl]) := by
  rw [handle_not_dup env st p hdup]
  cases hfind : findLead st.store (normalizedOf u) (jsStripSchemeWww (normalizedOf u)) with
  | some lead =>
    have hw := withLead_stale env st.store p (normalizedOf u) lead {} t hts hstale
    refine ⟨lead.id, ?_, ?_, ?_, ?_, ?_, Or.inl ?_⟩ <;>
      simp only [processAfterDedup, hurl, hfind, hw]
  | none =>
    have hcs : (cacheFind st.store (normalizedOf u)
        (jsStripSchemeWww (normalizedOf u))).isSome := by
      rcases hres with h | h
      · rw [hfind] at h
        simp at h
      · exact h
    obtain ⟨e, hce⟩ := Option.isSome_iff_exists.mp hcs
    have hw := withLead_stale env
      (upsertSocial (createLead env st.store (resolveFullName p) (integrationOrg st.store)).2
        (createLead env st.store (resolveFullName p) (integrationOrg st.store)).1.id
        (normalizedOf u))
      p (normalizedOf u)
      (createLead env st.store (resolveFullName p) (integrationOrg st.store)).1
      { createdLead := some
          ((createLead env st.store (resolveFullName p) (integrationOrg st.store)).1.id,
            "request_accepted", "request_accepted")
        socialUpsert := some
          ((createLead env st.store (resolveFullName p) (integrationOrg st.store)).1.id,
            normalizedOf u) }
      t hts hstale
    refine ⟨(createLead env st.store (resolveFullName p) (integrationOrg st.store)).1.id,
      ?_, ?_, ?_, ?_, ?_,
      Or.inr ⟨(createLead env st.store (resolveFullName p) (integrationOrg st.store)).1, ?_⟩⟩ <;>
      simp only [processAfterDedup, hurl, hfind, hce, hw]
    rw [upsertSocial_leads]
    simp [createLead]

/-- Witness for C1 at a concrete stale acceptance matching an existing lead. -/
theorem stale_event_no_mutation_witness :
    ∃ lid,
      (handleConnectionAccepted exEnv ⟨exStoreA, []⟩ exPStale).result
          = some (staleResult lid 999910000000) ∧
      (handleConnectionAccepted exEnv ⟨exStoreA, []⟩ exPStale).trace.acceptUpdate = none ∧
      (handleConnectionAccepted exEnv ⟨exStoreA, []⟩ exPStale).trace.phoneSet = none ∧
      (handleConnectionAccepted exEnv ⟨exStoreA, []⟩ exPStale).trace.callDispatch = none ∧
      (handleConnectionAccepted exEnv ⟨exStoreA, []⟩ exPStale).trace.callStageUpdate = none ∧
      ((handleConnectionAccepted exEnv ⟨exStoreA, []⟩ exPStale).state.store.leads
            = exStoreA.leads ∨
        ∃ nl, (handleConnectionAccepted exEnv ⟨exStoreA, []⟩ exPStale).state.store.leads
            = exStoreA.leads ++ [nl]) :=
  stale_event_no_mutation exEnv ⟨exStoreA, []⟩ exPStale
    "https://www.linkedin.com/in/jdoe" 999910000000
    (by decide) (by decide) (by decide) (by decide) (Or.inl (by decide))

/-- Claim C4 — for a fresh (non-duplicate, non-stale) acceptance event that
resolves to a lead which is already at the literal `call_triggered` stage,
or which has a tagged LinkedIn-connection call logged within the trailing 7
days, the handler returns a skipped result with the corresponding recorded
reason (`call_already_made` or `stage_already_call_triggered`), leaves the
store untouched, and records no effects — in particular no call dispatch
and no call-triggered stage update, so the transition cannot occur twice
within the guard windows. -/
theorem guarded_call_suppression (env : Env) (st : SvcState) (p : Payload) (u : String)
    (lead : Lead)
    (hdup : eventFingerprint env p ∉ st.processedEvents)
    (hurl : extractLinkedinUrl p = some u)
    (hfind : findLead st.store (normalizedOf u) (jsStripSchemeWww (normalizedOf u))
        = some lead)
    (hfresh : isStale env p = false)
    (hg : lead.stage = "call_triggered"
        ∨ recentTaggedCallsForLead st.store lead.id env.now ≠ []) :
    ∃ r : HookResult,
      (handleConnectionAccepted env st p).result = some r ∧
      r.skipped = true ∧ r.success = true ∧ r.leadId = some lead.id ∧
      (r.reason = some "call_already_made"
        ∨ r.reason = some "stage_already_call_triggered") ∧
      (handleConnectionAccepted env st p).state.store = st.store ∧
      (handleConnectionAccepted env st p).trace = {} := by
  obtain ⟨r, hr, h1, h2, h3, h4⟩ :=
    withLead_guarded env st.store p (normalizedOf u) lead {} hfresh hg
  refine ⟨r, ?_, h1, h2, h3, h4, ?_, ?_⟩ <;>
    · rw [handle_not_dup env st p hdup]
      simp only [processAfterDedup, hurl, hfind, hr]

/-- Witness for C4: a lead already at stage `call_triggered` and a fresh
acceptance event for it. -/
theorem guarded_call_suppression_witness :
    ∃ r : HookResult,
      (handleConnectionAccepted exEnv ⟨exStoreTrig, []⟩ exPayload).result = some r ∧
      r.skipped = true ∧ r.success = true ∧ r.leadId = some exLeadTrig.id ∧
      (r.reason = some "call_already_made"
        ∨ r.reason = some "stage_already_call_triggered") ∧
      (handleConnectionAccepted exEnv ⟨exStoreTrig, []⟩ exPayload).state.store
          = exStoreTrig ∧
      (handleConnectionAccepted exEnv ⟨exStoreTrig, []⟩ exPayload).trace = {} :=
  guarded_call_suppression exEnv ⟨exStoreTrig, []⟩ exPayload
    "https://www.linkedin.com/in/jdoe" exLeadTrig
    (by decide) (by decide) (by decide) (by decide) (Or.inl rfl)

/-- Claim C7 — auto-creation gating: (i) *whenever* a run creates a lead, the
subject URL was corroborated by the enrichment cache — a lead is never
auto-created solely from an unverified webhook claim; (ii) for a
non-duplicate event whose extracted subject matches no lead: on a cache
miss the handler returns the terminal not-eligible result and creates or
changes nothing; on a cache hit it creates exactly one lead whose status
and stage are the request-accepted values, together with its profile-link
upsert. -/
theorem auto_creation_gating :
    (∀ (env : Env) (st : SvcState) (p : Payload),
      (handleConnectionAccepted env st p).trace.createdLead.isSome →
      ∃ u, extractLinkedinUrl p = some u ∧
        (cacheFind st.store (normalizedOf u) (jsStripSchemeWww (normalizedOf u))).isSome) ∧
    (∀ (env : Env) (st : SvcState) (p : Payload) (u : String),
      eventFingerprint env p ∉ st.processedEvents →
      extractLinkedinUrl p = some u →
      findLead st.store (normalizedOf u) (jsStripSchemeWww (normalizedOf u)) = none →
      ((cacheFind st.store (normalizedOf u) (jsStripSchemeWww (normalizedOf u)) = none →
          (handleConnectionAccepted env st p).result = some notInCacheResult ∧
          (handleConnectionAccepted env st p).state.store = st.store ∧
          (handleConnectionAccepted env st p).trace = {}) ∧
        (∀ e, cacheFind st.store (normalizedOf u) (jsStripSchemeWww (normalizedOf u))
              = some e →
          (handleConnectionAccepted env st p).trace.createdLead
              = some (st.store.nextLeadId, "request_accepted", "request_accepted") ∧
          (handleConnectionAccepted env st p).trace.socialUpsert
              = some (st.store.nextLeadId, normalizedOf u) ∧
          (handleConnectionAccepted env st p).state.store.leads.length
              = st.store.leads.length + 1))) := by
  constructor
  · intro env st p h
    by_cases hdup : eventFingerprint env p ∈ st.processedEvents
    · rw [handle_dup env st p hdup] at h
      simp at h
    · rw [handle_not_dup env st p hdup] at h
      cases hurl : extractLinkedinUrl p with
      | none =>
        simp only [processAfterDedup, hurl] at h
        simp at h
      | some u =>
        refine ⟨u, rfl, ?_⟩
        simp only [processAfterDedup, hurl] at h
        cases hfind : findLead st.store (normalizedOf u) (jsStripSchemeWww (normalizedOf u)) with
        | some lead =>
          rw [hfind] at h
          have hp := (withLead_preserves env st.store p (normalizedOf u) lead {}).1.1
          rw [hp] at h
          simp at h
        | none =>
          rw [hfind] at h
          cases hce : cacheFind st.store (normalizedOf u) (jsStripSchemeWww (normalizedOf u)) with
          | none =>
            rw [hce] at h
            simp at h
          | some e => simp [hce]
  · intro env st p u hdup hurl hfind
    constructor
    · intro hce
      rw [handle_not_dup env st p hdup]
      refine ⟨?_, ?_, ?_⟩ <;> simp only [processAfterDedup, hurl, hfind, hce]
    · intro e hce
      rw [handle_not_dup env st p hdup]
      have hp := withLead_preserves env
        (upsertSocial (createLead env st.store (resolveFullName p) (integrationOrg st.store)).2
          (createLead env st.store (resolveFullName p) (integrationOrg st.store)).1.id
          (normalizedOf u))
        p (normalizedOf u)
        (createLead env st.store (resolveFullName p) (integrationOrg st.store)).1
        { createdLead := some
            ((createLead env st.store (resolveFullName p) (integrationOrg st.store)).1.id,
              "request_accepted", "request_accepted")
          socialUpsert := some
            ((createLead env st.store (resolveFullName p) (integrationOrg st.store)).1.id,
              normalizedOf u) }
      refine ⟨?_, ?_, ?_⟩ <;> simp only [processAfterDedup, hurl, hfind, hce]
      · rw [hp.1.1]
        simp [createLead]
      · rw [hp.1.2]
        simp [createLead]
      · rw [hp.2, upsertSocial_leads]
        simp [createLead]

/-- Witness for C7: a concrete cache miss (terminal not-eligible, nothing
created) and a concrete cache hit (exactly one auto-created
request-accepted lead). -/
theorem auto_creation_gating_witness :
    ((handleConnectionAccepted exEnv ⟨exStoreEmpty, []⟩ exPayload).result
          = some notInCacheResult ∧
      (handleConnectionAccepted exEnv ⟨exStoreEmpty, []⟩ exPayload).state.store
          = exStoreEmpty ∧
      (handleConnectionAccepted exEnv ⟨exStoreEmpty, []⟩ exPayload).trace = {}) ∧
    (handleConnectionAccepted exEnv ⟨exStoreCache, []⟩ exPayload).trace.createdLead
        = some (1, "request_accepted", "request_accepted") := by
  constructor
  · exact (auto_creation_gating.2 exEnv ⟨exStoreEmpty, []⟩ exPayload
      "https://www.linkedin.com/in/jdoe" (by decide) (by decide) (by decide)).1 (by decide)
  · exact ((auto_creation_gating.2 exEnv ⟨exStoreCache, []⟩ exPayload
      "https://www.linkedin.com/in/jdoe" (by decide) (by decide) (by decide)).2
      ⟨some "Jane", "https://www.linkedin.com/in/jdoe", none, some "+12345678"⟩
      (by decide)).1

end SocialIntegration
